import Mathlib

/-!
Verification of the LunaReading answer-submission state machine and its
frontend counterparts.  JavaScript strings are embedded as lists of
characters; evaluator scores are embedded as rationals.  The React
frontend (SessionView, SessionCreate, History, AuthContext, the API
configuration module) is embedded from its source; the Flask backend
routes and utilities are not part of the available sources, so the
submission state machine and the reading-level aggregator are modelled
from the specification, as indicated on each such definition.
-/

namespace LunaReading

/-- JavaScript strings are embedded as lists of characters. -/
abbrev JsString := List Char

/-- JavaScript `String.prototype.trim`: removes leading and trailing
whitespace. -/
def jsTrim (s : JsString) : JsString :=
  ((s.dropWhile Char.isWhitespace).reverse.dropWhile Char.isWhitespace).reverse

/-- Caller-declared submission intent, as in the spec and in the
`submission_type` field sent by SessionView (part_002). -/
inductive SubmissionType
  | initial
  | retry
  | final
deriving DecidableEq, Repr

/-- Sufficiency threshold.  The literal `0.7` appears in SessionView
(part_002 lines 100, 175, 203, 224) and the spec names it as the
configured default. -/
def threshold : ℚ := 7 / 10

/-- Per-question states of the submission state machine (spec section 4.1). -/
inductive QuestionState
  | notAttempted
  | awaitingRetry
  | sufficient
  | finalized
deriving DecidableEq, Repr

/-- A state is terminal when no further submissions are legal
(spec section 4.1: `SUFFICIENT` and `FINALIZED`). -/
def isTerminal : QuestionState → Bool
  | .sufficient => true
  | .finalized => true
  | _ => false

/-- One scored submission attempt (spec section 3, `Answer`). -/
structure Answer where
  submissionType : SubmissionType
  text : JsString
  score : ℚ
  rating : ℤ
deriving DecidableEq, Repr

/-- Derived sufficiency flag of an answer: score at or above the
threshold (spec section 3). -/
def Answer.sufficient (a : Answer) : Bool :=
  decide (threshold ≤ a.score)

/-- Terminal answers are the sufficient ones and the `final` ones
(spec glossary: they leave the question in `SUFFICIENT` or `FINALIZED`). -/
def Answer.terminal (a : Answer) : Bool :=
  a.sufficient || decide (a.submissionType = .final)

/-- Modelled from the spec: the question's derived state, a function of
its append-only answer history (section 4.1).  The backend route that
derives it (`backend/routes/questions.py`) is not among the sources.
A `final` last answer finalizes regardless of score; otherwise a last
answer at or above the threshold is sufficient; otherwise the question
awaits a retry; an empty history is not attempted. -/
def derivedState (history : List Answer) : QuestionState :=
  match history.getLast? with
  | none => .notAttempted
  | some a =>
    if a.submissionType = .final then .finalized
    else if a.sufficient then .sufficient
    else .awaitingRetry

/-- Modelled from the spec: legal submission types per state
(section 4.1 transition table). -/
def legalTypes : QuestionState → List SubmissionType
  | .notAttempted => [.initial]
  | .awaitingRetry => [.retry, .final]
  | .sufficient => []
  | .finalized => []

/-- Error taxonomy of the submission flow (spec section 7). -/
inductive SubmissionError
  | emptyAnswer
  | invalidSubmissionOrder
  | questionAlreadyComplete
deriving DecidableEq, Repr

/-- Result of the external AI evaluator (spec section 6). -/
structure EvalResult where
  score : ℚ
  rating : ℤ
deriving DecidableEq, Repr

/-- Modelled from the spec: the state reached by recording one evaluated
submission (section 4.1): `final` finalizes regardless of score; a score
at or above the threshold is sufficient regardless of declared type;
otherwise the question awaits a retry. -/
def stepState (t : SubmissionType) (score : ℚ) : QuestionState :=
  if t = .final then .finalized
  else if threshold ≤ score then .sufficient
  else .awaitingRetry

/-- Successful outcome of `recordSubmission`: the newly appended
immutable answer, the question's new derived state, and the new
history. -/
structure SubmissionResult where
  answer : Answer
  newState : QuestionState
  history : List Answer
deriving DecidableEq, Repr

/-- Modelled from the spec: `recordSubmission` (section 4.1).  The
backend route `POST /api/questions/(id)/answer` is not among the
sources.  Empty or whitespace-only text is rejected before the
evaluator is invoked; a terminal question rejects every submission;
a type outside the legal set for the current state is an order
violation; otherwise the evaluator is consulted and exactly one answer
is appended. -/
def recordSubmission (history : List Answer) (t : SubmissionType)
    (text : JsString) (evaluate : JsString → EvalResult) :
    Except SubmissionError SubmissionResult :=
  if jsTrim text = [] then .error .emptyAnswer
  else if isTerminal (derivedState history) then .error .questionAlreadyComplete
  else if t ∈ legalTypes (derivedState history) then
    let r := evaluate text
    let a : Answer := ⟨t, text, r.score, r.rating⟩
    .ok ⟨a, stepState t r.score, history ++ [a]⟩
  else .error .invalidSubmissionOrder

/-- Scores of the terminal answers of a history, in order (spec
section 4.2: the aggregator consumes exactly the terminal answers). -/
def terminalScores (history : List Answer) : List ℚ :=
  (history.filter Answer.terminal).map Answer.score

/-- Modelled from the spec: `recomputeReadingLevel` (section 4.2).  The
backend utility (`backend/utils.py`, "User reading level updates") is
not among the sources.  The mean of the terminal scores is anchored so
that a mean equal to the threshold maps to the user's grade level, with
proportional shift; with no terminal answers the current level is kept
(no division by zero).  The exact scaling is left open by the spec; a
unit linear anchor is used here. -/
def recomputeReadingLevel (gradeLevel : ℚ) (history : List Answer)
    (currentLevel : ℚ) : ℚ :=
  let scores := terminalScores history
  if scores = [] then currentLevel
  else gradeLevel + (scores.sum / scores.length - threshold)

/- Frontend embeddings (sources under src). -/

/-- Client-side feedback object built in SessionView (part_002): from
`fetchSession` (lines 95-104) or from the submit response (lines
138-144).  `submissionType` is absent on the `fetchSession` path. -/
structure ClientFeedback where
  score : Option ℚ
  sufficientFlag : Bool
  submissionType : Option SubmissionType
deriving DecidableEq, Repr

/-- JavaScript `x >= 0.7` where `x` may be null or undefined (a missing
number compares false). -/
def jsGeThreshold : Option ℚ → Bool
  | some s => decide (threshold ≤ s)
  | none => false

/-- SessionView `fetchSession` (part_002 lines 95-104): feedback
rebuilt from the server question, with `isSufficient` recomputed as
`q.score >= 0.7` and no `submissionType` recorded. -/
def mkFetchFeedback (qscore : Option ℚ) : ClientFeedback :=
  ⟨qscore, jsGeThreshold qscore, none⟩

/-- SessionView feedback built from a submit response (part_002 lines
138-144): `is_sufficient` and `submission_type` come from the server. -/
def mkSubmitFeedback (score : Option ℚ) (suff : Bool)
    (t : SubmissionType) : ClientFeedback :=
  ⟨score, suff, some t⟩

/-- The per-question client data SessionView renders from: the
feedback entry (if any) and the server question's stored score. -/
structure ClientQuestion where
  feedback : Option ClientFeedback
  score : Option ℚ
deriving DecidableEq, Repr

/-- SessionView line 224: a question renders as completed when
`feedback?.isSufficient || question.score >= 0.7`. -/
def isCompleted (q : ClientQuestion) : Bool :=
  (match q.feedback with
   | some f => f.sufficientFlag
   | none => false) || jsGeThreshold q.score

/-- SessionView line 225: the retry/final buttons are rendered only
when a first submission was made, the question is not completed, and
the latest feedback's submission type is `initial`. -/
def showActionButtons (hasFirstSubmission : Bool) (q : ClientQuestion) : Bool :=
  hasFirstSubmission && !isCompleted q &&
    (match q.feedback with
     | some f => decide (f.submissionType = some .initial)
     | none => false)

/-- SessionView lines 202-204: the session renders as fully completed
when every question satisfies `feedbacks[q.id]?.isSufficient ||
q.score >= 0.7`. -/
def allCompleted (qs : List ClientQuestion) : Bool :=
  qs.all isCompleted

/-- SessionView lines 305-313 and 420-445: the submission types for
which a submit control is rendered.  The initial submit button appears
inside the not-completed branch when no first submission was made; the
retry and final buttons appear when `showActionButtons` holds. -/
def offeredTypes (hasFirstSubmission : Bool) (q : ClientQuestion) :
    List SubmissionType :=
  (if !isCompleted q && !hasFirstSubmission then [.initial] else []) ++
  (if showActionButtons hasFirstSubmission q then [.retry, .final] else [])

/-- Outcome of the SessionView `submitAnswer` guard (part_002 lines
122-127): either the submission is rejected locally with no request
issued, or a request with the given text and type is posted. -/
inductive SubmitAction
  | rejectedEmpty
  | post (answerText : JsString) (t : SubmissionType)
deriving DecidableEq, Repr

/-- SessionView `submitAnswer` (part_002 lines 122-136): a missing,
empty or whitespace-only answer is rejected before any request is
issued (`!answers[questionId] || !answers[questionId].trim()`). -/
def submitAnswerAction (answerText : Option JsString)
    (t : SubmissionType) : SubmitAction :=
  match answerText with
  | none => .rejectedEmpty
  | some s => if s = [] ∨ jsTrim s = [] then .rejectedEmpty else .post s t

/-- SessionCreate.js lines 82-85: the option values of the question
count select. -/
def totalQuestionsOptions : List ℕ := [3, 5, 7, 10]

/-- SessionCreate.js line 11: the initial `total_questions` form value. -/
def defaultTotalQuestions : ℕ := 5

/-- Values the `total_questions` form field can hold: its initial value
or a value chosen from the select's options (SessionCreate.js
`handleChange` only stores option values of that select). -/
inductive ReachableTotalQuestions : ℕ → Prop
  | start : ReachableTotalQuestions defaultTotalQuestions
  | selected (n : ℕ) (h : n ∈ totalQuestionsOptions) : ReachableTotalQuestions n

/-- Body of the session-create request (SessionCreate.js lines 30-35). -/
structure SessionCreatePayload where
  bookTitle : JsString
  chapter : JsString
  totalQuestions : ℕ
deriving DecidableEq, Repr

/-- SessionCreate.js `handleSubmit` lines 29-36: the posted body, with
`total_questions: parseInt(formData.total_questions)` (the identity on
the numeric option values). -/
def sessionCreatePayload (book chapter : JsString) (tq : ℕ) :
    SessionCreatePayload :=
  ⟨book, chapter, tq⟩

/-- JavaScript truthiness of an optional string: present and
non-empty. -/
def jsTruthyString : Option JsString → Bool
  | some s => !s.isEmpty
  | none => false

/-- A string ends with a slash character. -/
def endsWithSlash (s : JsString) : Bool :=
  decide (s.getLast? = some '/')

/-- A string ends with two consecutive slash characters. -/
def endsTwoSlashes (s : JsString) : Bool :=
  endsWithSlash s && endsWithSlash s.dropLast

/-- JavaScript `.replace` with an anchored single-slash pattern, as in
the configuration module: removes exactly one trailing slash, if any. -/
def stripOneTrailingSlash (s : JsString) : JsString :=
  if endsWithSlash s then s.dropLast else s

/-- The configuration module bundled after Dashboard.js (lines 58-81):
pick the build-time variable if truthy, else the runtime window
variable if truthy and non-empty, else the empty relative base in
production, else the development fallback; then strip one trailing
slash when the result is truthy. -/
def computeApiUrl (envVar windowVar : Option JsString)
    (production : Bool) : JsString :=
  let base :=
    if jsTruthyString envVar then envVar.getD []
    else if jsTruthyString windowVar then windowVar.getD []
    else if production then []
    else "http://localhost:5001".toList
  if base.isEmpty then base else stripOneTrailingSlash base

/-- Client authentication state held by AuthContext (part_000): the
user object, the token state, the token stored in localStorage, and
the axios default Authorization header. -/
structure AuthState where
  user : Option JsString
  token : Option JsString
  localStorageToken : Option JsString
  authHeader : Option JsString
deriving DecidableEq, Repr

/-- AuthContext `logout` (part_000 lines 96-101): clears the token
state, the user, the stored token, and the Authorization header. -/
def logout (_st : AuthState) : AuthState :=
  ⟨none, none, none, none⟩

/-- Outcome of the profile request in AuthContext `fetchProfile`. -/
inductive FetchOutcome
  | ok (profile : JsString)
  | failed
deriving DecidableEq, Repr

/-- AuthContext `fetchProfile` (part_000 lines 33-45): on success the
user is stored; on any failure `logout` runs. -/
def fetchProfile (st : AuthState) (r : FetchOutcome) : AuthState :=
  match r with
  | .ok p => { st with user := some p }
  | .failed => logout st

/- Helper lemmas shared by the claim theorems. -/

/-- Trimming a string whose characters are all whitespace yields the
empty string. -/
lemma jsTrim_eq_nil_of_whitespace (s : JsString)
    (h : ∀ c ∈ s, c.isWhitespace = true) : jsTrim s = [] := by
  unfold jsTrim
  have h1 : s.dropWhile Char.isWhitespace = [] := by
    rw [List.dropWhile_eq_nil_iff]
    exact h
  simp [h1]

/-- The derived state after appending one answer is a function of that
answer. -/
lemma derivedState_concat (history : List Answer) (a : Answer) :
    derivedState (history ++ [a]) =
      if a.submissionType = .final then .finalized
      else if a.sufficient then .sufficient
      else .awaitingRetry := by
  unfold derivedState
  rw [List.getLast?_concat]

/-- Claim C1: a submission whose returned score is at or above the
threshold 0.7 leaves the question in the terminal `SUFFICIENT` state,
whether the requested type was `initial` or `retry`; and the SessionView
client renders any question whose score meets the threshold as
completed, regardless of its feedback entry. -/
theorem c1_high_score_yields_sufficient
    (history : List Answer) (t : SubmissionType) (text : JsString)
    (evaluate : JsString → EvalResult)
    (htext : jsTrim text ≠ [])
    (hterm : isTerminal (derivedState history) = false)
    (hlegal : t ∈ legalTypes (derivedState history))
    (ht : t = .initial ∨ t = .retry)
    (hscore : threshold ≤ (evaluate text).score) :
    recordSubmission history t text evaluate =
      .ok ⟨⟨t, text, (evaluate text).score, (evaluate text).rating⟩,
           .sufficient,
           history ++ [⟨t, text, (evaluate text).score, (evaluate text).rating⟩]⟩ ∧
    isTerminal .sufficient = true ∧
    ∀ fb, isCompleted ⟨fb, some (evaluate text).score⟩ = true := by
  have hne : t ≠ .final := by rcases ht with h | h <;> simp [h]
  have hstep : stepState t (evaluate text).score = .sufficient := by
    simp [stepState, hne, hscore]
  refine ⟨?_, rfl, ?_⟩
  · simp [recordSubmission, htext, hterm, hlegal, hstep]
  · intro fb
    cases fb <;> simp [isCompleted, jsGeThreshold, hscore]

/-- Witness for C1: an `initial` submission scored 0.8 on a fresh
question ends `SUFFICIENT`, and the client shows it completed. -/
theorem c1_witness :
    recordSubmission [] .initial ('a' :: []) (fun _ => ⟨4/5, 5⟩) =
      .ok ⟨⟨.initial, 'a' :: [], 4/5, 5⟩, .sufficient,
           [⟨.initial, 'a' :: [], 4/5, 5⟩]⟩ ∧
    isCompleted ⟨none, some (4/5)⟩ = true := by
  have h := c1_high_score_yields_sufficient [] .initial ('a' :: [])
    (fun _ => ⟨4/5, 5⟩) (by decide) (by decide) (by decide)
    (Or.inl rfl) (by norm_num [threshold])
  exact ⟨h.1, h.2.2 none⟩

/-- Claim C2: a `final` submission leaves the question in the terminal
`FINALIZED` state regardless of score, and every subsequent submission
attempt of any type on it yields `QuestionAlreadyComplete`. -/
theorem c2_final_finalizes
    (history : List Answer) (text : JsString)
    (evaluate : JsString → EvalResult)
    (htext : jsTrim text ≠ [])
    (hterm : isTerminal (derivedState history) = false)
    (hlegal : SubmissionType.final ∈ legalTypes (derivedState history)) :
    recordSubmission history .final text evaluate =
      .ok ⟨⟨.final, text, (evaluate text).score, (evaluate text).rating⟩,
           .finalized,
           history ++ [⟨.final, text, (evaluate text).score, (evaluate text).rating⟩]⟩ ∧
    isTerminal .finalized = true ∧
    ∀ t' text' ev', jsTrim text' ≠ [] →
      recordSubmission
        (history ++ [⟨.final, text, (evaluate text).score, (evaluate text).rating⟩])
        t' text' ev' = .error .questionAlreadyComplete := by
  have hstep : stepState .final (evaluate text).score = .finalized := by
    simp [stepState]
  refine ⟨?_, rfl, ?_⟩
  · simp [recordSubmission, htext, hterm, hlegal, hstep]
  · intro t' text' ev' htext'
    have hstate : derivedState
        (history ++ [⟨.final, text, (evaluate text).score, (evaluate text).rating⟩]) =
        .finalized := by
      rw [derivedState_concat]
      rfl
    simp [recordSubmission, htext', hstate, isTerminal]

/-- Witness for C2: finalizing with score 0.3 on a question awaiting a
retry, then attempting a further `retry` submission. -/
theorem c2_witness :
    recordSubmission [⟨.initial, 'a' :: [], 1/2, 3⟩] .final ('b' :: [])
        (fun _ => ⟨3/10, 1⟩) =
      .ok ⟨⟨.final, 'b' :: [], 3/10, 1⟩, .finalized,
           [⟨.initial, 'a' :: [], 1/2, 3⟩, ⟨.final, 'b' :: [], 3/10, 1⟩]⟩ ∧
    recordSubmission
        [⟨.initial, 'a' :: [], 1/2, 3⟩, ⟨.final, 'b' :: [], 3/10, 1⟩]
        .retry ('c' :: []) (fun _ => ⟨1, 5⟩) =
      .error .questionAlreadyComplete := by
  have h := c2_final_finalizes [⟨.initial, 'a' :: [], 1/2, 3⟩] ('b' :: [])
    (fun _ => ⟨3/10, 1⟩) (by decide)
    (by norm_num [derivedState, isTerminal, Answer.sufficient, threshold]; decide)
    (by norm_num [derivedState, legalTypes, Answer.sufficient, threshold]; decide)
  exact ⟨h.1, h.2.2 .retry ('c' :: []) (fun _ => ⟨1, 5⟩) (by decide)⟩

/-- Counterexample to C3 as stated: a question whose latest answer is a
below-threshold `retry` is in `AWAITING_RETRY`, yet the SessionView
client offers no submission type at all — the retry and final buttons
require the latest feedback's type to be `initial`. -/
theorem c3_counterexample :
    derivedState [⟨.initial, 'a' :: [], 2/5, 2⟩, ⟨.retry, 'b' :: [], 2/5, 2⟩] =
      .awaitingRetry ∧
    offeredTypes true
      ⟨some (mkSubmitFeedback (some (2/5)) false .retry), some (2/5)⟩ = [] := by
  constructor
  · norm_num [derivedState, Answer.sufficient, threshold]; decide
  · norm_num [offeredTypes, showActionButtons, isCompleted, jsGeThreshold,
      mkSubmitFeedback, threshold]; decide

/-- Claim C3 (amended): for a not-completed question on which a first
submission was made, the client offers exactly the retry and final
choices precisely when the latest feedback's submission type is
`initial`; when the latest feedback's type is `retry`, nothing is
offered. -/
theorem c3_offered_types (q : ClientQuestion)
    (hnc : isCompleted q = false) :
    (offeredTypes true q = [.retry, .final] ↔
      ∃ f, q.feedback = some f ∧ f.submissionType = some .initial) ∧
    ∀ f, q.feedback = some f → f.submissionType = some .retry →
      offeredTypes true q = [] := by
  obtain ⟨fb, sc⟩ := q
  cases fb with
  | none =>
    simp [offeredTypes, showActionButtons, hnc]
  | some f =>
    by_cases hf : f.submissionType = some .initial
    · simp [offeredTypes, showActionButtons, hnc, hf]
    · simp [offeredTypes, showActionButtons, hnc, hf]

/-- Witness for C3 (amended): after a below-threshold `initial`
submission the client offers retry and final; after a below-threshold
`retry` submission it offers nothing. -/
theorem c3_witness :
    offeredTypes true
      ⟨some (mkSubmitFeedback (some (2/5)) false .initial), some (2/5)⟩ =
      [.retry, .final] ∧
    offeredTypes true
      ⟨some (mkSubmitFeedback (some (2/5)) false .retry), some (2/5)⟩ = [] := by
  have h1 := c3_offered_types
    ⟨some (mkSubmitFeedback (some (2/5)) false .initial), some (2/5)⟩
    (by norm_num [isCompleted, jsGeThreshold, mkSubmitFeedback, threshold])
  have h2 := c3_offered_types
    ⟨some (mkSubmitFeedback (some (2/5)) false .retry), some (2/5)⟩
    (by norm_num [isCompleted, jsGeThreshold, mkSubmitFeedback, threshold])
  exact ⟨h1.1.mpr ⟨_, rfl, rfl⟩, h2.2 _ rfl rfl⟩

/-- Counterexample to C4 as stated: a question finalized with score 0.3
is in a terminal state, yet the SessionView session-completion check
counts it as not completed. -/
theorem c4_counterexample :
    isTerminal (derivedState [⟨.final, 'x' :: [], 3/10, 2⟩]) = true ∧
    allCompleted [⟨some (mkFetchFeedback (some (3/10))), some (3/10)⟩] = false := by
  constructor
  · rfl
  · norm_num [allCompleted, isCompleted, mkFetchFeedback, jsGeThreshold, threshold]

/-- Claim C4 (amended): the SessionView session-completion check holds
exactly when every question's score meets the threshold; a question
finalized below the threshold does not count toward completion. -/
theorem c4_all_completed_iff (scores : List ℚ) :
    allCompleted (scores.map fun s => ⟨some (mkFetchFeedback (some s)), some s⟩) =
      true ↔ ∀ s ∈ scores, threshold ≤ s := by
  simp [allCompleted, List.all_eq_true, isCompleted, mkFetchFeedback, jsGeThreshold]

/-- Claim C5: a missing, empty, or whitespace-only answer is rejected
by the SessionView client before any request is issued, and the
modelled backend rejects it with `EmptyAnswerError` for every history
and every evaluator — so no evaluator call and no persisted answer
depend on it. -/
theorem c5_empty_rejected (t : SubmissionType) (s : JsString)
    (hws : ∀ c ∈ s, c.isWhitespace = true) :
    submitAnswerAction (some s) t = .rejectedEmpty ∧
    submitAnswerAction none t = .rejectedEmpty ∧
    ∀ history evaluate,
      recordSubmission history t s evaluate = .error .emptyAnswer := by
  have htrim : jsTrim s = [] := jsTrim_eq_nil_of_whitespace s hws
  refine ⟨?_, rfl, ?_⟩
  · simp [submitAnswerAction, htrim]
  · intro history evaluate
    simp [recordSubmission, htrim]

/-- Witness for C5: a single-space answer is rejected locally and by the
modelled backend on a fresh question. -/
theorem c5_witness :
    submitAnswerAction (some (' ' :: [])) .initial = .rejectedEmpty ∧
    submitAnswerAction none .initial = .rejectedEmpty ∧
    recordSubmission [] .initial (' ' :: []) (fun _ => ⟨1, 5⟩) =
      .error .emptyAnswer := by
  have h := c5_empty_rejected .initial (' ' :: []) (by decide)
  exact ⟨h.1, h.2.1, h.2.2 [] (fun _ => ⟨1, 5⟩)⟩

/-- Claim C6: a question with no answers derives `NOT_ATTEMPTED`, whose
only legal type is `initial`; the client offers only the initial submit
button there; and any other type yields `InvalidSubmissionOrder` in the
modelled backend. -/
theorem c6_not_attempted_only_initial :
    derivedState [] = .notAttempted ∧
    legalTypes .notAttempted = [.initial] ∧
    offeredTypes false ⟨none, none⟩ = [.initial] ∧
    ∀ t, t ≠ SubmissionType.initial → ∀ text ev, jsTrim text ≠ [] →
      recordSubmission [] t text ev = .error .invalidSubmissionOrder := by
  refine ⟨rfl, rfl, rfl, ?_⟩
  intro t ht text ev htext
  cases t with
  | initial => exact absurd rfl ht
  | retry => simp [recordSubmission, htext, derivedState, isTerminal, legalTypes]
  | final => simp [recordSubmission, htext, derivedState, isTerminal, legalTypes]

/-- Witness for C6: a `retry` on a fresh question is an order
violation. -/
theorem c6_witness :
    recordSubmission [] .retry ('a' :: []) (fun _ => ⟨1, 5⟩) =
      .error .invalidSubmissionOrder :=
  c6_not_attempted_only_initial.2.2.2 .retry (by decide) ('a' :: [])
    (fun _ => ⟨1, 5⟩) (by decide)

/-- Claim C7: the modelled reading-level recomputation is idempotent —
recomputing again with no new terminal answers returns the same value —
and is a function of exactly the terminal scores and the grade level:
any history with the same terminal scores yields the same output. -/
theorem c7_recompute_deterministic (grade lvl : ℚ)
    (history history2 : List Answer)
    (hsame : terminalScores history2 = terminalScores history) :
    recomputeReadingLevel grade history (recomputeReadingLevel grade history lvl) =
      recomputeReadingLevel grade history lvl ∧
    recomputeReadingLevel grade history2 lvl =
      recomputeReadingLevel grade history lvl := by
  constructor
  · by_cases h : terminalScores history = [] <;>
      simp [recomputeReadingLevel, h]
  · simp only [recomputeReadingLevel, hsame]

/-- Witness for C7: terminal scores 0.9, 0.6 (final), 0.75 — two
different histories with the same terminal scores agree, and a second
recompute is stable. -/
theorem c7_witness :
    recomputeReadingLevel 3
        [⟨.initial, 'a' :: [], 9/10, 5⟩, ⟨.final, 'b' :: [], 6/10, 3⟩,
         ⟨.retry, 'c' :: [], 3/4, 4⟩]
        (recomputeReadingLevel 3
          [⟨.initial, 'a' :: [], 9/10, 5⟩, ⟨.final, 'b' :: [], 6/10, 3⟩,
           ⟨.retry, 'c' :: [], 3/4, 4⟩] 0) =
      recomputeReadingLevel 3
        [⟨.initial, 'a' :: [], 9/10, 5⟩, ⟨.final, 'b' :: [], 6/10, 3⟩,
         ⟨.retry, 'c' :: [], 3/4, 4⟩] 0 ∧
    recomputeReadingLevel 3
        [⟨.retry, 'x' :: [], 9/10, 2⟩, ⟨.initial, 'y' :: [], 1/2, 1⟩,
         ⟨.final, 'z' :: [], 6/10, 2⟩, ⟨.initial, 'w' :: [], 3/4, 5⟩] 0 =
      recomputeReadingLevel 3
        [⟨.initial, 'a' :: [], 9/10, 5⟩, ⟨.final, 'b' :: [], 6/10, 3⟩,
         ⟨.retry, 'c' :: [], 3/4, 4⟩] 0 :=
  c7_recompute_deterministic 3 0
    [⟨.initial, 'a' :: [], 9/10, 5⟩, ⟨.final, 'b' :: [], 6/10, 3⟩,
     ⟨.retry, 'c' :: [], 3/4, 4⟩]
    [⟨.retry, 'x' :: [], 9/10, 2⟩, ⟨.initial, 'y' :: [], 1/2, 1⟩,
     ⟨.final, 'z' :: [], 6/10, 2⟩, ⟨.initial, 'w' :: [], 3/4, 5⟩]
    (by norm_num [terminalScores, List.filter_cons, Answer.terminal,
      Answer.sufficient, threshold]; simp)

/-- Claim C8: every reachable value of the session-create question
count lies in the fixed option set, and the default is 5. -/
theorem c8_total_questions_in_options (n : ℕ) (book chapter : JsString)
    (h : ReachableTotalQuestions n) :
    (sessionCreatePayload book chapter n).totalQuestions ∈ totalQuestionsOptions ∧
    defaultTotalQuestions = 5 ∧ totalQuestionsOptions = [3, 5, 7, 10] := by
  refine ⟨?_, rfl, rfl⟩
  cases h with
  | start => exact (by decide : defaultTotalQuestions ∈ totalQuestionsOptions)
  | selected n hm => exact hm

/-- Witness for C8: selecting the 3-question option yields a request
count inside the option set. -/
theorem c8_witness :
    (sessionCreatePayload [] [] 3).totalQuestions ∈ totalQuestionsOptions ∧
    defaultTotalQuestions = 5 ∧ totalQuestionsOptions = [3, 5, 7, 10] :=
  c8_total_questions_in_options 3 [] []
    (ReachableTotalQuestions.selected 3 (by decide))

/-- Counterexample to C9 as stated: a build-time value ending in two
slashes yields an API base URL that still ends with a slash, because
the configuration strips exactly one trailing slash. -/
theorem c9_counterexample :
    endsWithSlash (computeApiUrl (some ('h' :: '/' :: '/' :: [])) none false) =
      true := by
  decide

/-- Stripping one trailing slash from a string that does not end in two
slashes leaves no trailing slash. -/
lemma endsWithSlash_strip (s : JsString) (h : endsTwoSlashes s = false) :
    endsWithSlash (stripOneTrailingSlash s) = false := by
  unfold stripOneTrailingSlash
  by_cases hs : endsWithSlash s = true
  · unfold endsTwoSlashes at h
    rw [hs] at h
    simp at h
    simp [hs, h]
  · simp at hs
    simp [hs]

/-- Claim C9 (amended): the API base URL never ends with a slash
provided no configured source value ends in two consecutive slashes. -/
theorem c9_no_trailing_slash (envVar windowVar : Option JsString)
    (production : Bool)
    (henv : ∀ s, envVar = some s → endsTwoSlashes s = false)
    (hwin : ∀ s, windowVar = some s → endsTwoSlashes s = false) :
    endsWithSlash (computeApiUrl envVar windowVar production) = false := by
  unfold computeApiUrl
  by_cases he : jsTruthyString envVar = true
  · cases envVar with
    | none => simp [jsTruthyString] at he
    | some s =>
      have hse : s.isEmpty = false := by
        simpa [jsTruthyString] using he
      simp only [he, if_true, Option.getD_some, hse, Bool.false_eq_true,
        if_false]
      exact endsWithSlash_strip s (henv s rfl)
  · by_cases hw : jsTruthyString windowVar = true
    · cases windowVar with
      | none => simp [jsTruthyString] at hw
      | some s =>
        have hse : s.isEmpty = false := by
          simpa [jsTruthyString] using hw
        simp only [he, Bool.false_eq_true, if_false, hw, if_true,
          Option.getD_some, hse]
        exact endsWithSlash_strip s (hwin s rfl)
    · by_cases hp : production = true
      · simp [he, hw, hp, endsWithSlash]
      · have hp' : production = false := by
          simpa using hp
        simp only [he, hw, hp', Bool.false_eq_true, if_false]
        decide

/-- Witness for C9 (amended): with a single-trailing-slash build-time
value the resulting API base URL has no trailing slash. -/
theorem c9_witness :
    endsWithSlash (computeApiUrl (some ('h' :: '/' :: [])) none false) = false :=
  c9_no_trailing_slash (some ('h' :: '/' :: [])) none false
    (by intro s hs; cases hs; decide)
    (by intro s hs; cases hs)

/-- Claim C10: whenever the profile fetch fails, the client performs a
full logout — user, token, stored token and Authorization header all
become absent, exactly the `logout` state. -/
theorem c10_failed_profile_clears_auth (st : AuthState) :
    (fetchProfile st .failed).user = none ∧
    (fetchProfile st .failed).token = none ∧
    (fetchProfile st .failed).localStorageToken = none ∧
    (fetchProfile st .failed).authHeader = none ∧
    fetchProfile st .failed = logout st :=
  ⟨rfl, rfl, rfl, rfl, rfl⟩

end LunaReading
